import Mathlib

/-!
# Verification of the JBL Synthesis protocol engine

Shallow embedding of `src/lib/JblProtocol.ts` (frame codec) and
`src/lib/JblConnection.ts` (command queue / connection manager) from the
`com.jbl.synthesis` repository, together with proofs of the spec's testable
properties.

Buffers are modelled as `List Nat` of byte values; `Buffer.from` truncation
is modelled by `% 256`.  Stateful code is modelled by explicit state passing:
each event handler of `JblConnection` becomes a function
`ConnState → ConnState × List Output`, where `Output` records socket writes,
promise resolutions/rejections and emitted events.
-/

/-- Start-transmission byte (`STX = 0x21`, the character `!`). -/
def STX : Nat := 0x21

/-- End-transmission byte (`ETX = 0x0D`, carriage return). -/
def ETX : Nat := 0x0D

/-- Reserved "request current value" payload marker (`REQUEST = 0xF0`). -/
def REQUEST : Nat := 0xF0

/-- `Zone.MASTER = 0x01` from the `Zone` enum. -/
def Zone.MASTER : Nat := 0x01

/-- `Zone.ZONE2 = 0x02` from the `Zone` enum. -/
def Zone.ZONE2 : Nat := 0x02

/-- `Cmd.VOLUME = 0x0D` from the `Cmd` enum. -/
def Cmd.VOLUME : Nat := 0x0D

/-- `Cmd.HEARTBEAT = 0x25` from the `Cmd` enum. -/
def Cmd.HEARTBEAT : Nat := 0x25

/-- A parsed inbound frame (`interface JblResponse`). -/
structure JblResponse where
  zone : Nat
  command : Nat
  answer : Nat
  data : List Nat
deriving Repr, DecidableEq

/-- `buildCommand(zone, cmd, data)`: emits
`Buffer.from([STX, zone, cmd, data.length, ...data, ETX])`.
`Buffer.from` truncates every entry to a byte, modelled by `% 256`. -/
def buildCommand (zone cmd : Nat) (data : List Nat) : List Nat :=
  ([STX, zone, cmd, data.length] ++ data ++ [ETX]).map (· % 256)

/-- `buildQuery(zone, cmd)`: `buildCommand(zone, cmd, [REQUEST])`. -/
def buildQuery (zone cmd : Nat) : List Nat :=
  buildCommand zone cmd [REQUEST]

/-- Body of `parseResponse(buffer)`, with explicit fuel standing in for the
recursion on `buffer.subarray(startIdx + 1)` in the corrupted-frame branch.
Each recursive call is on a strict suffix (at least one byte shorter), so
`buffer.length` fuel always suffices; `parseResponseGo_fuel_irrelevant`
below makes this rigorous (at fuel `0` the buffer is forced empty, where the
source also returns `null` since `indexOf` fails).  All other lines mirror
the source one-for-one: find the first start byte; require 6 bytes from it;
read zone/command/answer/data-length; require the declared total length;
check the end marker, skipping one byte past the start byte and reparsing
when it is wrong; on success return the frame and `startIdx + totalLength`.
Note the recursive result is returned unadjusted, exactly as in the source
(`return parseResponse(buffer.subarray(startIdx + 1));`). -/
def parseResponseGo : Nat → List Nat → Option (JblResponse × Nat)
  | 0, _ => none
  | fuel + 1, buffer =>
    match buffer.findIdx? (· == STX) with
    | none => none
    | some startIdx =>
      if buffer.length - startIdx < 6 then none
      else
        let zone := buffer.getD (startIdx + 1) 0
        let command := buffer.getD (startIdx + 2) 0
        let answer := buffer.getD (startIdx + 3) 0
        let dataLength := buffer.getD (startIdx + 4) 0
        let totalLength := 5 + dataLength + 1
        if buffer.length - startIdx < totalLength then none
        else if buffer.getD (startIdx + totalLength - 1) 0 ≠ ETX then
          parseResponseGo fuel (buffer.drop (startIdx + 1))
        else
          some ({ zone := zone, command := command, answer := answer,
                  data := (buffer.drop (startIdx + 5)).take dataLength },
                startIdx + totalLength)

/-- `parseResponse(buffer)`: attempts to parse one complete response,
returning the parsed response and the number of bytes consumed, or `none`
if the buffer does not contain a complete response. -/
def parseResponse (buffer : List Nat) : Option (JblResponse × Nat) :=
  parseResponseGo buffer.length buffer

/-- `isError(response)`: `response.answer >= 0x82`. -/
def isError (response : JblResponse) : Bool :=
  decide (0x82 ≤ response.answer)

/-- JavaScript `n.toString(16)` for a natural number: lowercase hex digits. -/
def natToHex (n : Nat) : String :=
  String.mk (Nat.toDigits 16 n)

/-- `errorMessage(answer)`: the `switch` over the known answer codes, with
the template-literal default `Unknown error (0x${answer.toString(16)})`. -/
def errorMessage (answer : Nat) : String :=
  if answer = 0x82 then "Zone invalid"
  else if answer = 0x83 then "Command not recognised"
  else if answer = 0x84 then "Parameter not recognised"
  else if answer = 0x85 then "Command invalid at this time"
  else if answer = 0x86 then "Invalid data length"
  else "Unknown error (0x" ++ natToHex answer ++ ")"

/-- If `findIdx?` reports an index, it is inside the list. -/
theorem findIdx?_lt_length {l : List Nat} {p : Nat → Bool} {i : Nat}
    (h : l.findIdx? p = some i) : i < l.length :=
  (List.findIdx?_eq_some_iff_findIdx_eq.mp h).1

/-- The fuel argument of `parseResponseGo` is irrelevant as soon as it is at
least the buffer length: the corrupted-frame recursion drops at least one
byte per step, so `buffer.length` fuel can never run out. -/
theorem parseResponseGo_fuel_irrelevant :
    ∀ (n : Nat) (b : List Nat), b.length ≤ n →
      ∀ f₁ f₂ : Nat, b.length ≤ f₁ → b.length ≤ f₂ →
        parseResponseGo f₁ b = parseResponseGo f₂ b := by
  intro n
  induction n with
  | zero =>
    intro b hb f₁ f₂ _ _
    have hbnil : b = [] := List.eq_nil_of_length_eq_zero (Nat.le_zero.mp hb)
    subst hbnil
    cases f₁ <;> cases f₂ <;> simp [parseResponseGo]
  | succ n ih =>
    intro b hb f₁ f₂ h₁ h₂
    match f₁, f₂ with
    | 0, f₂ =>
      have hbnil : b = [] := List.eq_nil_of_length_eq_zero (Nat.le_zero.mp h₁)
      subst hbnil
      cases f₂ <;> simp [parseResponseGo]
    | f₁ + 1, 0 =>
      have hbnil : b = [] := List.eq_nil_of_length_eq_zero (Nat.le_zero.mp h₂)
      subst hbnil
      simp [parseResponseGo]
    | f₁ + 1, f₂ + 1 =>
      show parseResponseGo (f₁ + 1) b = parseResponseGo (f₂ + 1) b
      simp only [parseResponseGo]
      cases hidx : b.findIdx? (· == STX) with
      | none => rfl
      | some startIdx =>
        simp only
        split_ifs with hshort htot hetx
        · rfl
        · rfl
        · exact ih (b.drop (startIdx + 1))
            (by simp only [List.length_drop]; omega) f₁ f₂
            (by simp only [List.length_drop]; omega)
            (by simp only [List.length_drop]; omega)
        · rfl

/-- Whenever `parseResponseGo` succeeds, the consumed byte count is at least
the minimal frame size 6 and at most the buffer length. -/
theorem parseResponseGo_consumed_bounds :
    ∀ (fuel : Nat) (b : List Nat) (resp : JblResponse) (n : Nat),
      parseResponseGo fuel b = some (resp, n) → 6 ≤ n ∧ n ≤ b.length := by
  intro fuel
  induction fuel with
  | zero => intro b resp n h; simp [parseResponseGo] at h
  | succ fuel ih =>
    intro b resp n h
    simp only [parseResponseGo] at h
    cases hidx : b.findIdx? (· == STX) with
    | none => rw [hidx] at h; simp at h
    | some startIdx =>
      rw [hidx] at h
      simp only at h
      split_ifs at h with hshort htot hetx
      · have := ih (b.drop (startIdx + 1)) resp n h
        simp only [List.length_drop] at this
        omega
      · simp only [Option.some.injEq, Prod.mk.injEq] at h
        obtain ⟨-, hn⟩ := h
        omega

/-- `parseResponse` consumed-bytes bounds, used for loop termination. -/
theorem parseResponse_consumed_bounds {b : List Nat} {resp : JblResponse}
    {n : Nat} (h : parseResponse b = some (resp, n)) :
    6 ≤ n ∧ n ≤ b.length :=
  parseResponseGo_consumed_bounds b.length b resp n h

/-! ## Connection manager state (`src/lib/JblConnection.ts`)

`JblConnection` is event-driven; each of its handlers is embedded as a pure
transition `ConnState → ConnState × List Output`.  Promises and their timers
are identified by a numeric `id`: `Output.resolved`/`Output.rejected` record
the corresponding `resolve`/`reject` call on that promise, `Output.wrote`
records a `socket.write`, and the remaining constructors record the events
emitted on the `EventEmitter`.  Timer callbacks (`timeoutFire` for a command
timeout) are separate transitions fired by the environment. -/

/-- `ConnectionOptions` after the constructor merges in the defaults
(`reconnectDelay: 3000, maxReconnectDelay: 60000, heartbeatInterval: 30000,
commandTimeout: 5000`). -/
structure Options where
  reconnectDelay : Nat := 3000
  maxReconnectDelay : Nat := 60000
  heartbeatInterval : Nat := 30000
  commandTimeout : Nat := 5000
deriving Repr, DecidableEq

/-- A `QueuedCommand`: the encoded outbound bytes plus the identity of its
promise/timer pair (`resolve`, `reject` and `timeout` of the source). -/
structure QueuedCommand where
  id : Nat
  buffer : List Nat
deriving Repr, DecidableEq

/-- The mutable fields of `JblConnection`.  `hasSocket` models
`this.socket !== null`.  Field defaults mirror the class initializers. -/
structure ConnState where
  options : Options := {}
  receiveBuffer : List Nat := []
  commandQueue : List QueuedCommand := []
  currentCommand : Option QueuedCommand := none
  connected : Bool := false
  hasSocket : Bool := false
  reconnectAttempts : Nat := 0
  intentionalDisconnect : Bool := false
deriving Repr, DecidableEq

/-- Externally observable effects of a transition. -/
inductive Output where
  | wrote (buffer : List Nat)
  | resolved (id : Nat) (response : JblResponse)
  | rejected (id : Nat) (message : String)
  | status (response : JblResponse)
  | disconnectedEvent
  | reconnecting (attempt : Nat) (delay : Nat)
deriving Repr, DecidableEq

/-- True exactly for `Output.status` effects. -/
def Output.isStatus : Output → Bool
  | .status _ => true
  | _ => false

/-- `processQueue()`: do nothing if a command is in flight, the queue is
empty, or the connection is down; otherwise shift the queue head, make it
the current command and write its bytes.  The `catch` around
`socket.write` handles a host-environment exception and is not modelled:
the write itself is the `Output.wrote` effect. -/
def processQueue (s : ConnState) : ConnState × List Output :=
  match s.currentCommand with
  | some _ => (s, [])
  | none =>
    match s.commandQueue with
    | [] => (s, [])
    | c :: rest =>
      if s.connected && s.hasSocket then
        ({ s with currentCommand := some c, commandQueue := rest },
         [Output.wrote c.buffer])
      else (s, [])

/-- `enqueue(buffer)` body: push the new `QueuedCommand` onto the queue tail
and call `processQueue()`.  The `setTimeout` it installs is the separate
`timeoutFire` transition below. -/
def enqueue (s : ConnState) (c : QueuedCommand) : ConnState × List Output :=
  processQueue { s with commandQueue := s.commandQueue ++ [c] }

/-- The command-timeout timer callback inside `enqueue`: splice the entry
out of the queue if still queued; if it is the in-flight command, clear the
in-flight slot and call `processQueue()`; finally reject the promise with
`Command timeout`. -/
def timeoutFire (s : ConnState) (id : Nat) : ConnState × List Output :=
  let s₁ :=
    match s.commandQueue.findIdx? (fun q => q.id == id) with
    | some i => { s with commandQueue := s.commandQueue.eraseIdx i }
    | none => s
  match s₁.currentCommand with
  | some p =>
    if p.id == id then
      let r := processQueue { s₁ with currentCommand := none }
      (r.1, r.2 ++ [Output.rejected id "Command timeout"])
    else (s₁, [Output.rejected id "Command timeout"])
  | none => (s₁, [Output.rejected id "Command timeout"])

/-- `rejectPending(reason)`: reject the in-flight command (if any), then
every queued command, then empty the queue. -/
def rejectPending (s : ConnState) (reason : String) : ConnState × List Output :=
  let curOut :=
    match s.currentCommand with
    | some p => [Output.rejected p.id reason]
    | none => []
  ({ s with currentCommand := none, commandQueue := [] },
   curOut ++ s.commandQueue.map (fun q => Output.rejected q.id reason))

/-- The `while (result)` loop body of `onData`, with fuel standing in for
its termination (each parsed frame consumes at least 6 bytes by
`parseResponse_consumed_bounds`, so `buffer.length` fuel suffices; at fuel
`0` the buffer is forced empty and `parseResponse` returns `none` anyway).
Per frame: if a command is in flight, its timer is cleared and its promise
is rejected with the decoded error message when `isError`, resolved with
the frame otherwise, and the in-flight slot is cleared (the `setTimeout(50)`
re-promotion is a later environment-driven `processQueue`); with no command
in flight the frame is emitted as an unsolicited `status` event. -/
def drainFramesGo : Nat → Option QueuedCommand → List Nat →
    Option QueuedCommand × List Nat × List Output
  | 0, current, buffer => (current, buffer, [])
  | fuel + 1, current, buffer =>
    match parseResponse buffer with
    | none => (current, buffer, [])
    | some (resp, n) =>
      match current with
      | some p =>
        let out :=
          if isError resp then Output.rejected p.id (errorMessage resp.answer)
          else Output.resolved p.id resp
        let r := drainFramesGo fuel none (buffer.drop n)
        (r.1, r.2.1, out :: r.2.2)
      | none =>
        let r := drainFramesGo fuel none (buffer.drop n)
        (r.1, r.2.1, Output.status resp :: r.2.2)

/-- `onData(data)`: append to the receive buffer, consume every complete
frame, then apply the 1KB safety valve (`if length > 1024, discard`). -/
def onData (s : ConnState) (data : List Nat) : ConnState × List Output :=
  let buf := s.receiveBuffer ++ data
  let r := drainFramesGo buf.length s.currentCommand buf
  let newBuf := if 1024 < r.2.1.length then [] else r.2.1
  ({ s with currentCommand := r.1, receiveBuffer := newBuf }, r.2.2)

/-- `scheduleReconnect()`: compute
`min(reconnectDelay * 2 ** reconnectAttempts, maxReconnectDelay)`,
increment the attempt counter, and emit `reconnecting` with the incremented
attempt number and the computed delay.  The `setTimeout` that later calls
`connect()` is environment-driven and carries no further state. -/
def scheduleReconnect (s : ConnState) : ConnState × List Output :=
  let delay := min (s.options.reconnectDelay * 2 ^ s.reconnectAttempts)
    s.options.maxReconnectDelay
  ({ s with reconnectAttempts := s.reconnectAttempts + 1 },
   [Output.reconnecting (s.reconnectAttempts + 1) delay])

/-- `disconnect()` up to the socket teardown: set the intentional flag,
stop the heartbeat and any scheduled reconnect (pure timer operations),
reject all pending commands with `Disconnecting`, and drop the socket
(`this.socket = null`).  `_connected` is reset by the later close event
(`onClose`). -/
def disconnectStep (s : ConnState) : ConnState × List Output :=
  let r := rejectPending { s with intentionalDisconnect := true } "Disconnecting"
  ({ r.1 with hasSocket := false }, r.2)

/-- The socket `close` handler registered in `connect()`: record whether we
were connected, clear `_connected`, stop the heartbeat, reject all pending
commands with `Connection closed`, emit `disconnected` if previously
connected, and schedule a reconnect unless the disconnect was intentional. -/
def onClose (s : ConnState) : ConnState × List Output :=
  let wasConnected := s.connected
  let r := rejectPending { s with connected := false } "Connection closed"
  let discOut := if wasConnected then [Output.disconnectedEvent] else []
  if s.intentionalDisconnect then (r.1, r.2 ++ discOut)
  else
    let r₂ := scheduleReconnect r.1
    (r₂.1, r.2 ++ discOut ++ r₂.2)

/-- While no command is in flight, the receive loop only ever emits
unsolicited `status` events: it never resolves or rejects anything, since
the in-flight slot stays empty throughout the drain. -/
theorem drainFramesGo_none_isStatus :
    ∀ (fuel : Nat) (buffer : List Nat) (o : Output),
      o ∈ (drainFramesGo fuel none buffer).2.2 → o.isStatus = true := by
  intro fuel
  induction fuel with
  | zero => intro buffer o ho; simp [drainFramesGo] at ho
  | succ fuel ih =>
    intro buffer o ho
    simp only [drainFramesGo] at ho
    cases hp : parseResponse buffer with
    | none => rw [hp] at ho; simp at ho
    | some r =>
      rw [hp] at ho
      simp only [List.mem_cons] at ho
      rcases ho with rfl | ho
      · rfl
      · exact ih (buffer.drop r.2) o ho

/-- Claim C1 (code bug witnessed): on the 12-byte buffer made of a corrupt
frame (its sixth byte `0x99` fails the end-marker check) followed by one
well-formed 6-byte frame, `parseResponse` finds the well-formed frame but
reports `bytesConsumed = 11`, not `6 + 6 = 12` as the spec requires: the
corrupted-frame branch returns the recursive result on
`buffer.subarray(startIdx + 1)` without re-adding the `startIdx + 1`
skipped bytes, so the caller under-trims its receive buffer. -/
theorem parseResponse_corrupt_prefix_miscounts :
    parseResponse ([0x21, 0x01, 0x0D, 0x00, 0x00, 0x99] ++
        [0x21, 0x01, 0x0D, 0x00, 0x00, 0x0D]) =
      some ({ zone := 0x01, command := 0x0D, answer := 0x00, data := [] }, 11) ∧
    (11 : Nat) ≠ 6 + 6 := by
  constructor
  · decide
  · decide

/-- Claim C2: at most one command is ever in flight and promotion pops the
FIFO head: from a connected idle state, enqueueing three commands writes
exactly the first command's bytes to the socket, leaves it in flight, and
keeps the second and third queued in submission order; in general,
`processQueue` on a connected state with no in-flight command promotes
exactly the queue head and writes exactly its bytes. -/
theorem enqueue_three_single_write (s t : ConnState)
    (c₁ c₂ c₃ d : QueuedCommand) (rest : List QueuedCommand)
    (hconn : s.connected = true) (hsock : s.hasSocket = true)
    (hcur : s.currentCommand = none) (hq : s.commandQueue = [])
    (htconn : t.connected = true) (htsock : t.hasSocket = true)
    (htcur : t.currentCommand = none) (htq : t.commandQueue = d :: rest) :
    (enqueue s c₁).2 = [Output.wrote c₁.buffer] ∧
    (enqueue (enqueue s c₁).1 c₂).2 = [] ∧
    (enqueue (enqueue (enqueue s c₁).1 c₂).1 c₃).2 = [] ∧
    (enqueue (enqueue (enqueue s c₁).1 c₂).1 c₃).1.currentCommand = some c₁ ∧
    (enqueue (enqueue (enqueue s c₁).1 c₂).1 c₃).1.commandQueue = [c₂, c₃] ∧
    processQueue t =
      ({ t with currentCommand := some d, commandQueue := rest },
       [Output.wrote d.buffer]) := by
  refine ⟨?_, ?_, ?_, ?_, ?_, ?_⟩ <;>
    simp [enqueue, processQueue, hconn, hsock, hcur, hq, htconn, htsock,
      htcur, htq]

/-- Witness for C2 at a concrete connected idle state and three concrete
commands. -/
theorem enqueue_three_single_write_witness :
    (enqueue { connected := true, hasSocket := true } ⟨1, [0xAA]⟩).2 =
        [Output.wrote [0xAA]] ∧
    (enqueue (enqueue { connected := true, hasSocket := true }
        ⟨1, [0xAA]⟩).1 ⟨2, [0xBB]⟩).2 = [] ∧
    (enqueue (enqueue (enqueue { connected := true, hasSocket := true }
        ⟨1, [0xAA]⟩).1 ⟨2, [0xBB]⟩).1 ⟨3, [0xCC]⟩).2 = [] ∧
    (enqueue (enqueue (enqueue { connected := true, hasSocket := true }
        ⟨1, [0xAA]⟩).1 ⟨2, [0xBB]⟩).1 ⟨3, [0xCC]⟩).1.currentCommand =
      some ⟨1, [0xAA]⟩ ∧
    (enqueue (enqueue (enqueue { connected := true, hasSocket := true }
        ⟨1, [0xAA]⟩).1 ⟨2, [0xBB]⟩).1 ⟨3, [0xCC]⟩).1.commandQueue =
      [⟨2, [0xBB]⟩, ⟨3, [0xCC]⟩] := by
  have h := enqueue_three_single_write
    { connected := true, hasSocket := true }
    { connected := true, hasSocket := true, commandQueue := [⟨9, [0xEE]⟩] }
    ⟨1, [0xAA]⟩ ⟨2, [0xBB]⟩ ⟨3, [0xCC]⟩ ⟨9, [0xEE]⟩ []
    rfl rfl rfl rfl rfl rfl rfl rfl
  exact ⟨h.1, h.2.1, h.2.2.1, h.2.2.2.1, h.2.2.2.2.1⟩

/-- Claim C3: when the command-timeout timer of the in-flight command
fires, the command is rejected with `Command timeout` and the in-flight
slot is cleared; any frame data arriving afterwards produces only
unsolicited `status` events — the rejected command can never be resolved by
a late frame.  The default configured timeout is 5000 ms. -/
theorem timeout_rejects_then_late_frames_are_status
    (s : ConnState) (p : QueuedCommand) (data : List Nat) (o : Output)
    (hcur : s.currentCommand = some p) (hq : s.commandQueue = [])
    (ho : o ∈ (onData (timeoutFire s p.id).1 data).2) :
    (timeoutFire s p.id).2 = [Output.rejected p.id "Command timeout"] ∧
    (timeoutFire s p.id).1.currentCommand = none ∧
    o.isStatus = true ∧
    ({} : Options).commandTimeout = 5000 := by
  have hstate : (timeoutFire s p.id).1.currentCommand = none ∧
      (timeoutFire s p.id).2 = [Output.rejected p.id "Command timeout"] := by
    constructor <;> simp [timeoutFire, processQueue, hcur, hq]
  refine ⟨hstate.2, hstate.1, ?_, rfl⟩
  rw [onData] at ho
  simp only [hstate.1] at ho
  exact drainFramesGo_none_isStatus _ _ o ho

/-- Witness for C3: concrete in-flight command `id = 7`, then a complete
status frame arrives after the timeout. -/
theorem timeout_rejects_then_late_frames_are_status_witness :
    (timeoutFire { connected := true, hasSocket := true
                   currentCommand := some ⟨7, [0xAA]⟩ } 7).2 =
      [Output.rejected 7 "Command timeout"] ∧
    (Output.status { zone := 1, command := 13, answer := 0
                     data := [50] }).isStatus = true := by
  have h := timeout_rejects_then_late_frames_are_status
    { connected := true, hasSocket := true, currentCommand := some ⟨7, [0xAA]⟩ }
    ⟨7, [0xAA]⟩ [0x21, 0x01, 0x0D, 0x00, 0x01, 0x32, 0x0D]
    (Output.status { zone := 1, command := 13, answer := 0, data := [50] })
    rfl rfl (by decide)
  exact ⟨h.1, h.2.2.1⟩

/-- Claim C5: `disconnect()` with one command in flight and the rest
queued rejects each of them with the `Disconnecting` error exactly once, in
order, leaves the queue empty and the in-flight slot clear; the subsequent
socket-close event adds no further rejection (only the `disconnected`
event), and any data arriving after the drain produces only `status`
events, so no request can resolve any more. -/
theorem disconnect_drains_all_pending
    (s : ConnState) (p : QueuedCommand) (cs : List QueuedCommand)
    (data : List Nat) (o : Output)
    (hcur : s.currentCommand = some p) (hq : s.commandQueue = cs)
    (hconn : s.connected = true)
    (ho : o ∈ (onData (disconnectStep s).1 data).2) :
    (disconnectStep s).2 = Output.rejected p.id "Disconnecting" ::
        cs.map (fun q => Output.rejected q.id "Disconnecting") ∧
    (disconnectStep s).1.commandQueue = [] ∧
    (disconnectStep s).1.currentCommand = none ∧
    (onClose (disconnectStep s).1).2 = [Output.disconnectedEvent] ∧
    o.isStatus = true := by
  have hqueue : (disconnectStep s).1.commandQueue = [] := by
    simp [disconnectStep, rejectPending]
  have hcurrent : (disconnectStep s).1.currentCommand = none := by
    simp [disconnectStep, rejectPending]
  refine ⟨?_, hqueue, hcurrent, ?_, ?_⟩
  · simp [disconnectStep, rejectPending, hcur, hq]
  · simp [onClose, rejectPending, scheduleReconnect, disconnectStep, hconn]
  · rw [onData] at ho
    simp only [hcurrent] at ho
    exact drainFramesGo_none_isStatus _ _ o ho

/-- Witness for C5: one in-flight and two queued commands, then a status
frame after the drain. -/
theorem disconnect_drains_all_pending_witness :
    (disconnectStep { connected := true, hasSocket := true
                      currentCommand := some ⟨1, [0xAA]⟩
                      commandQueue := [⟨2, [0xBB]⟩, ⟨3, [0xCC]⟩] }).2 =
      [Output.rejected 1 "Disconnecting", Output.rejected 2 "Disconnecting",
       Output.rejected 3 "Disconnecting"] ∧
    (disconnectStep { connected := true, hasSocket := true
                      currentCommand := some ⟨1, [0xAA]⟩
                      commandQueue :=
                        [⟨2, [0xBB]⟩, ⟨3, [0xCC]⟩] }).1.commandQueue = [] := by
  have h := disconnect_drains_all_pending
    { connected := true, hasSocket := true
      currentCommand := some ⟨1, [0xAA]⟩
      commandQueue := [⟨2, [0xBB]⟩, ⟨3, [0xCC]⟩] }
    ⟨1, [0xAA]⟩ [⟨2, [0xBB]⟩, ⟨3, [0xCC]⟩]
    [0x21, 0x01, 0x0D, 0x00, 0x01, 0x32, 0x0D]
    (Output.status { zone := 1, command := 13, answer := 0, data := [50] })
    rfl rfl rfl (by decide)
  exact ⟨h.1, h.2.1⟩

/-- Iterating the reconnect scheduler `k` times adds `k` to the attempt
counter and leaves the options untouched. -/
theorem scheduleReconnect_iterate (t : ConnState) (k : Nat) :
    ((fun u => (scheduleReconnect u).1)^[k] t).reconnectAttempts =
        t.reconnectAttempts + k ∧
    ((fun u => (scheduleReconnect u).1)^[k] t).options = t.options := by
  induction k with
  | zero => simp
  | succ k ih =>
    rw [Function.iterate_succ_apply']
    constructor
    · show (scheduleReconnect
          ((fun u => (scheduleReconnect u).1)^[k] t)).1.reconnectAttempts =
        t.reconnectAttempts + (k + 1)
      have e : (scheduleReconnect
          ((fun u => (scheduleReconnect u).1)^[k] t)).1.reconnectAttempts =
          ((fun u => (scheduleReconnect u).1)^[k] t).reconnectAttempts + 1 := rfl
      rw [e, ih.1]
      omega
    · show (scheduleReconnect
          ((fun u => (scheduleReconnect u).1)^[k] t)).1.options = t.options
      have e : (scheduleReconnect
          ((fun u => (scheduleReconnect u).1)^[k] t)).1.options =
          ((fun u => (scheduleReconnect u).1)^[k] t).options := rfl
      rw [e, ih.2]

/-- Claim C6: each call to `scheduleReconnect` emits one `reconnecting`
event carrying the incremented attempt counter and the delay
`min(reconnectDelay · 2 ^ attempts, maxReconnectDelay)` computed from the
attempt counter before the increment; starting from attempt 0 with the
default base 3000 ms and cap 60000 ms, the k-th scheduled attempt is
delayed by `min(3000 · 2^k, 60000)`, the first seven delays are
3000, 6000, 12000, 24000, 48000, 60000, 60000, and every attempt from the
sixth on (k ≥ 5) is delayed exactly 60000 ms. -/
theorem reconnect_backoff_delays (s t : ConnState) (k : Nat)
    (h0 : t.reconnectAttempts = 0)
    (hbase : t.options.reconnectDelay = 3000)
    (hmax : t.options.maxReconnectDelay = 60000)
    (hcap : 5 ≤ k) :
    (scheduleReconnect s).2 =
      [Output.reconnecting (s.reconnectAttempts + 1)
        (min (s.options.reconnectDelay * 2 ^ s.reconnectAttempts)
          s.options.maxReconnectDelay)] ∧
    (scheduleReconnect s).1.reconnectAttempts = s.reconnectAttempts + 1 ∧
    (scheduleReconnect ((fun u => (scheduleReconnect u).1)^[k] t)).2 =
      [Output.reconnecting (k + 1) (min (3000 * 2 ^ k) 60000)] ∧
    (List.range 7).map (fun j => min (3000 * 2 ^ j) 60000) =
      [3000, 6000, 12000, 24000, 48000, 60000, 60000] ∧
    min (3000 * 2 ^ k) 60000 = 60000 := by
  have hiter := scheduleReconnect_iterate t k
  have hpow : 32 ≤ 2 ^ k := by
    calc (32 : Nat) = 2 ^ 5 := by norm_num
    _ ≤ 2 ^ k := Nat.pow_le_pow_right (by norm_num) hcap
  refine ⟨rfl, rfl, ?_, by decide, by omega⟩
  have e : (scheduleReconnect ((fun u => (scheduleReconnect u).1)^[k] t)).2 =
      [Output.reconnecting
        (((fun u => (scheduleReconnect u).1)^[k] t).reconnectAttempts + 1)
        (min (((fun u => (scheduleReconnect u).1)^[k] t).options.reconnectDelay *
            2 ^ ((fun u => (scheduleReconnect u).1)^[k] t).reconnectAttempts)
          (((fun u => (scheduleReconnect u).1)^[k] t).options.maxReconnectDelay))] :=
    rfl
  rw [e, hiter.1, hiter.2, h0, hbase, hmax]
  simp

/-- Witness for C6 at `k = 5` and concrete fresh states. -/
theorem reconnect_backoff_delays_witness :
    (scheduleReconnect ({} : ConnState)).2 = [Output.reconnecting 1 3000] ∧
    (scheduleReconnect
        ((fun u => (scheduleReconnect u).1)^[5] ({} : ConnState))).2 =
      [Output.reconnecting 6 60000] ∧
    min (3000 * 2 ^ 5) 60000 = 60000 := by
  have h := reconnect_backoff_delays ({} : ConnState) ({} : ConnState) 5
    rfl rfl rfl (by decide)
  refine ⟨?_, ?_, h.2.2.2.2⟩
  · rw [h.1]; decide
  · rw [h.2.2.1]; decide

/-- Claim C7: when the first start byte opens a frame whose declared total
length (6 header/trailer bytes plus the length byte's payload count)
exceeds the bytes available from that start byte on, `parseResponse`
reports `none` — no bytes are consumed and the whole buffer is kept for
further accumulation. -/
theorem truncated_frame_parses_none (buffer : List Nat) (i : Nat)
    (hidx : buffer.findIdx? (· == STX) = some i)
    (hlen : buffer.length - i < 5 + buffer.getD (i + 4) 0 + 1) :
    parseResponse buffer = none := by
  have hi : i < buffer.length := findIdx?_lt_length hidx
  obtain ⟨m, hm⟩ : ∃ m, buffer.length = m + 1 := ⟨buffer.length - 1, by omega⟩
  rw [parseResponse, hm]
  simp only [parseResponseGo, hidx]
  split_ifs with h1
  · rfl
  · rfl

/-- Witness for C7: a 6-byte buffer whose length byte declares 5 payload
bytes that never arrived. -/
theorem truncated_frame_parses_none_witness :
    parseResponse [0x21, 0x01, 0x0D, 0x00, 0x05, 0x01] = none :=
  truncated_frame_parses_none [0x21, 0x01, 0x0D, 0x00, 0x05, 0x01] 0
    (by decide) (by decide)

/-- Claim C9: `buildQuery` is `buildCommand` with the single-byte payload
`REQUEST = 0xF0`, for every zone and command; at zone `MASTER = 0x01` and
command `VOLUME = 0x0D` it produces exactly
`[0x21, 0x01, 0x0D, 0x01, 0xF0, 0x0D]`. -/
theorem buildQuery_is_buildCommand_request :
    (∀ zone cmd : Nat, buildQuery zone cmd = buildCommand zone cmd [REQUEST]) ∧
    buildQuery Zone.MASTER Cmd.VOLUME = [0x21, 0x01, 0x0D, 0x01, 0xF0, 0x0D] :=
  ⟨fun _ _ => rfl, by decide⟩

/-- Claim C10: every successful parse consumes at least the minimal frame
size 6 and at most the whole buffer, so dropping the consumed bytes
strictly shrinks the buffer — the `while (result)` receive loop in `onData`
makes strict progress and terminates on every finite buffer. -/
theorem parseResponse_consumed_within_buffer (buffer : List Nat)
    (resp : JblResponse) (n : Nat)
    (h : parseResponse buffer = some (resp, n)) :
    6 ≤ n ∧ n ≤ buffer.length ∧
    (buffer.drop n).length < buffer.length := by
  have hb := parseResponse_consumed_bounds h
  simp only [List.length_drop]
  omega

/-- Witness for C10 on a minimal 6-byte frame. -/
theorem parseResponse_consumed_within_buffer_witness :
    6 ≤ 6 ∧ 6 ≤ ([0x21, 0x01, 0x0D, 0x00, 0x00, 0x0D] : List Nat).length ∧
    (([0x21, 0x01, 0x0D, 0x00, 0x00, 0x0D] : List Nat).drop 6).length <
      ([0x21, 0x01, 0x0D, 0x00, 0x00, 0x0D] : List Nat).length :=
  parseResponse_consumed_within_buffer [0x21, 0x01, 0x0D, 0x00, 0x00, 0x0D]
    { zone := 0x01, command := 0x0D, answer := 0x00, data := [] } 6 (by decide)

/-- Claim C4, counterexample: feeding `buildCommand`'s own output back to
`parseResponse` does not return the encoded frame — it returns `none`.
The outbound layout `[STX, zone, cmd, len, ...data, ETX]` has no answer
byte, while the parser expects the inbound layout
`[STX, zone, cmd, answer, len, ...data, ETX]`, so the parser misreads the
payload byte `0x32` as a 50-byte declared length and waits for more data. -/
theorem encode_then_parse_is_not_roundtrip :
    parseResponse (buildCommand 0x01 0x0D [0x32]) = none := by decide

/-- Claim C4, amended: the codec round-trips against the inbound frame
layout: for every zone, command, answer and payload (length at most 255),
parsing `[STX, zone, cmd, answer, len, ...payload, ETX]` — which is
`buildCommand`'s output with the answer byte inserted after the command
byte — returns exactly that zone, command, answer and payload, consuming
the whole frame of `6 + len` bytes. -/
theorem inbound_frame_roundtrip (zone cmd answer : Nat) (data : List Nat)
    (hlen : data.length ≤ 255) :
    parseResponse ([STX, zone, cmd, answer, data.length] ++ data ++ [ETX]) =
      some ({ zone := zone, command := cmd, answer := answer, data := data },
            6 + data.length) := by
  show parseResponse
      (STX :: zone :: cmd :: answer :: data.length :: (data ++ [ETX])) = _
  have hL : (STX :: zone :: cmd :: answer :: data.length ::
      (data ++ [ETX])).length = data.length + 5 + 1 := by
    simp [List.length_append]
  have hfind : (STX :: zone :: cmd :: answer :: data.length ::
      (data ++ [ETX])).findIdx? (· == STX) = some 0 := by
    simp [List.findIdx?_cons]
  rw [parseResponse, hL]
  simp only [parseResponseGo, hfind]
  have hgd4 : (STX :: zone :: cmd :: answer :: data.length ::
      (data ++ [ETX])).getD (0 + 4) 0 = data.length := rfl
  rw [hgd4]
  have hc1 : ¬((STX :: zone :: cmd :: answer :: data.length ::
      (data ++ [ETX])).length - 0 < 6) := by rw [hL]; omega
  have hc2 : ¬((STX :: zone :: cmd :: answer :: data.length ::
      (data ++ [ETX])).length - 0 < 5 + data.length + 1) := by rw [hL]; omega
  have hetx : (STX :: zone :: cmd :: answer :: data.length ::
      (data ++ [ETX])).getD (0 + (5 + data.length + 1) - 1) 0 = ETX := by
    have hsplit : STX :: zone :: cmd :: answer :: data.length ::
        (data ++ [ETX]) =
        [STX, zone, cmd, answer, data.length] ++ (data ++ [ETX]) := rfl
    have hix : 0 + (5 + data.length + 1) - 1 = 5 + data.length := by omega
    rw [hix, hsplit,
      List.getD_append_right _ _ _ _ (by simp : ([STX, zone, cmd, answer,
        data.length] : List Nat).length ≤ 5 + data.length)]
    have hix2 : 5 + data.length - ([STX, zone, cmd, answer,
        data.length] : List Nat).length = data.length := by simp
    rw [hix2, List.getD_append_right _ _ _ _ (Nat.le_refl data.length),
      Nat.sub_self]
    rfl
  have hne : ¬((STX :: zone :: cmd :: answer :: data.length ::
      (data ++ [ETX])).getD (0 + (5 + data.length + 1) - 1) 0 ≠ ETX) :=
    fun hcon => hcon hetx
  rw [if_neg hc1, if_neg hc2, if_neg hne]
  have hgd1 : (STX :: zone :: cmd :: answer :: data.length ::
      (data ++ [ETX])).getD (0 + 1) 0 = zone := rfl
  have hgd2 : (STX :: zone :: cmd :: answer :: data.length ::
      (data ++ [ETX])).getD (0 + 2) 0 = cmd := rfl
  have hgd3 : (STX :: zone :: cmd :: answer :: data.length ::
      (data ++ [ETX])).getD (0 + 3) 0 = answer := rfl
  have hdata : ((STX :: zone :: cmd :: answer :: data.length ::
      (data ++ [ETX])).drop (0 + 5)).take data.length = data := by
    have hdrop : (STX :: zone :: cmd :: answer :: data.length ::
        (data ++ [ETX])).drop (0 + 5) = data ++ [ETX] := rfl
    rw [hdrop]
    exact List.take_left data [ETX]
  rw [hgd1, hgd2, hgd3, hdata]
  have hsum : 0 + (5 + data.length + 1) = 6 + data.length := by omega
  rw [hsum]

/-- Witness for the amended C4 at zone 1, command `VOLUME`, answer 0 and
payload `[0x32]`. -/
theorem inbound_frame_roundtrip_witness :
    parseResponse ([STX, 0x01, 0x0D, 0x00,
        ([0x32] : List Nat).length] ++ [0x32] ++ [ETX]) =
      some ({ zone := 0x01, command := 0x0D, answer := 0x00, data := [0x32] },
            6 + ([0x32] : List Nat).length) :=
  inbound_frame_roundtrip 0x01 0x0D 0x00 [0x32] (by decide)

/-- Claim C8: when a parsed inbound frame arrives while a command is in
flight and its answer code is at or above `0x82` (`isError`), the very
first effect of the receive loop is to reject that command with the
decoded error message; `0x83` decodes to `Command not recognised`, the
other known codes to their human-readable strings, and any unknown code to
the generic unknown-error message carrying the raw code in lowercase
hexadecimal. -/
theorem error_frame_rejects_inflight (s : ConnState) (data : List Nat)
    (p : QueuedCommand) (resp : JblResponse) (n a : Nat)
    (hcur : s.currentCommand = some p)
    (hparse : parseResponse (s.receiveBuffer ++ data) = some (resp, n))
    (herr : 0x82 ≤ resp.answer)
    (ha : a ∉ ([0x82, 0x83, 0x84, 0x85, 0x86] : List Nat)) :
    ((onData s data).2).head? =
      some (Output.rejected p.id (errorMessage resp.answer)) ∧
    isError resp = true ∧
    errorMessage 0x82 = "Zone invalid" ∧
    errorMessage 0x83 = "Command not recognised" ∧
    errorMessage 0x84 = "Parameter not recognised" ∧
    errorMessage 0x85 = "Command invalid at this time" ∧
    errorMessage 0x86 = "Invalid data length" ∧
    errorMessage a = "Unknown error (0x" ++ natToHex a ++ ")" := by
  have hbool : isError resp = true := decide_eq_true herr
  refine ⟨?_, hbool, rfl, rfl, rfl, rfl, rfl, ?_⟩
  · have hb := parseResponse_consumed_bounds hparse
    obtain ⟨f, hf⟩ : ∃ f, (s.receiveBuffer ++ data).length = f + 1 :=
      ⟨(s.receiveBuffer ++ data).length - 1, by omega⟩
    rw [onData]
    simp only [hcur, hf, drainFramesGo, hparse, hbool, if_true,
      List.head?_cons]
  · simp only [List.mem_cons, List.not_mem_nil, or_false, not_or] at ha
    obtain ⟨h1, h2, h3, h4, h5⟩ := ha
    rw [errorMessage, if_neg h1, if_neg h2, if_neg h3, if_neg h4, if_neg h5]

/-- Witness for C8: an inbound `0x83` error frame rejecting in-flight
command 4 with `Command not recognised`, and an unknown code `0x99`
decoding to the generic message. -/
theorem error_frame_rejects_inflight_witness :
    ((onData { connected := true, hasSocket := true
               currentCommand := some ⟨4, [0x01]⟩ }
        [0x21, 0x01, 0x0D, 0x83, 0x00, 0x0D]).2).head? =
      some (Output.rejected 4 (errorMessage 0x83)) ∧
    errorMessage 0x99 = "Unknown error (0x" ++ natToHex 0x99 ++ ")" := by
  have h := error_frame_rejects_inflight
    { connected := true, hasSocket := true, currentCommand := some ⟨4, [0x01]⟩ }
    [0x21, 0x01, 0x0D, 0x83, 0x00, 0x0D] ⟨4, [0x01]⟩
    { zone := 0x01, command := 0x0D, answer := 0x83, data := [] } 6 0x99
    rfl (by decide) (by decide) (by decide)
  exact ⟨h.1, h.2.2.2.2.2.2.2⟩
